import Mathlib

/-!
# darkspeak: handshake buffers, peer state and file records

A shallow embedding of the declarations in

* `src/protlib/include/ds/peer.h` (`Peer`, `Peer::Hello`, `Peer::Olleh`),
* `src/protlib/include/ds/dsclient.h` (`DsClient`),
* `src/corelib/include/ds/file.h` (`File::State`, `File::Direction`, `FileData`),
* `src/corelib/src/protocolmanager.cpp` (`ProtocolManager::create`),

followed by the properties proved about them.

Pointers into a handshake buffer are byte offsets relative to `buffer.data()`.
Sizes are natural numbers: the field sizes are compile-time constants of the
crypto library, far below the word size.
-/

namespace ds

/-! ## Byte views -/

namespace crypto

/-- Modelled from the spec: `crypto::MemoryView<uint8_t>` (its header is not among
the sources), a "typed byte view with explicit length": a start pointer and a
number of bytes, built as `MemoryView{ptr, len}`. The pointer is kept as the byte
offset from `buffer.data()` of the buffer it points into. -/
structure MemoryView where
  data : Nat
  len : Nat
  deriving DecidableEq, Repr

namespace MemoryView

/-- Number of bytes in the view, `size()`. -/
def size (v : MemoryView) : Nat := v.len

/-- One past the last byte of the view, `end()`. The name carries an underscore
because `end` is reserved. -/
def end_ (v : MemoryView) : Nat := v.data + v.len

/-- Byte offset `i` lies inside the view, that is in `[data, end)`. -/
def covers (v : MemoryView) (i : Nat) : Prop := v.data ≤ i ∧ i < v.end_

instance (v : MemoryView) (i : Nat) : Decidable (v.covers i) := by
  unfold covers; infer_instance

/-- Two views share no byte. -/
def disjoint (a b : MemoryView) : Prop := ∀ i, ¬ (a.covers i ∧ b.covers i)

/-- The bytes a view shows of the buffer it points into. -/
def read (v : MemoryView) (buffer : List Nat) : List Nat :=
  (buffer.drop v.data).take v.len

/-- The buffer after `src` has been copied to where the view points: at most
`len` bytes of `src` replace the bytes from offset `data` on, every other byte
stays. -/
def write (v : MemoryView) (buffer : List Nat) (src : List Nat) : List Nat :=
  buffer.take v.data ++ src.take v.len ++ buffer.drop (v.data + (src.take v.len).length)

end MemoryView

end crypto

/-! ## Field sizes of the crypto library -/

/-- The four size constants of libsodium that `peer.h` uses. `<sodium.h>` is not
among the sources, so they are parameters of the embedding. -/
structure SodiumSizes where
  crypto_secretstream_xchacha20poly1305_KEYBYTES : Nat
  crypto_secretstream_xchacha20poly1305_HEADERBYTES : Nat
  crypto_sign_PUBLICKEYBYTES : Nat
  crypto_sign_BYTES : Nat
  deriving DecidableEq, Repr

/-- The values libsodium gives these constants: 32, 24, 32 and 64. -/
def libsodium : SodiumSizes :=
  { crypto_secretstream_xchacha20poly1305_KEYBYTES := 32
    crypto_secretstream_xchacha20poly1305_HEADERBYTES := 24
    crypto_sign_PUBLICKEYBYTES := 32
    crypto_sign_BYTES := 64 }

namespace prot

open crypto

/-! ## `Peer::Hello` and `Peer::Olleh` -/

/-- The struct `Peer::Hello`: a byte buffer and five views into it. -/
structure Hello where
  buffer : List Nat
  version : MemoryView
  key : MemoryView
  header : MemoryView
  pubkey : MemoryView
  signature : MemoryView
  deriving DecidableEq, Repr

namespace Hello

/-- The constant `Hello::bytes`. -/
def bytes (c : SodiumSizes) : Nat :=
  1 /- version -/
    + c.crypto_secretstream_xchacha20poly1305_KEYBYTES
    + c.crypto_secretstream_xchacha20poly1305_HEADERBYTES
    + c.crypto_sign_PUBLICKEYBYTES /- pubkey -/
    + c.crypto_sign_BYTES

/-- The constructor `Hello()`: `buffer{}` zero-fills the `bytes` bytes of the
array, and every view is `{start pointer, length}`, each starting at the `end()`
of the one before. -/
def new (c : SodiumSizes) : Hello :=
  let buffer : List Nat := List.replicate (bytes c) 0
  let version : MemoryView := ⟨0, 1⟩
  let key : MemoryView := ⟨version.end_, c.crypto_secretstream_xchacha20poly1305_KEYBYTES⟩
  let header : MemoryView := ⟨key.end_, c.crypto_secretstream_xchacha20poly1305_HEADERBYTES⟩
  let pubkey : MemoryView := ⟨header.end_, c.crypto_sign_PUBLICKEYBYTES⟩
  let signature : MemoryView := ⟨pubkey.end_, c.crypto_sign_BYTES⟩
  { buffer := buffer, version := version, key := key, header := header,
    pubkey := pubkey, signature := signature }

/-- The condition of the `Q_ASSERT` in the body of `Hello()`. -/
def sizeAssert (h : Hello) : Bool :=
  (1 + h.key.size + h.header.size + h.pubkey.size + h.signature.size) == h.buffer.length

/-- The five views in declaration order. -/
def views (h : Hello) : List MemoryView :=
  [h.version, h.key, h.header, h.pubkey, h.signature]

end Hello

/-- The struct `Peer::Olleh`: a byte buffer and four views into it. -/
structure Olleh where
  buffer : List Nat
  version : MemoryView
  key : MemoryView
  header : MemoryView
  signature : MemoryView
  deriving DecidableEq, Repr

namespace Olleh

/-- The constant `Olleh::bytes`. -/
def bytes (c : SodiumSizes) : Nat :=
  1 /- version -/
    + c.crypto_secretstream_xchacha20poly1305_KEYBYTES
    + c.crypto_secretstream_xchacha20poly1305_HEADERBYTES
    + c.crypto_sign_BYTES

/-- The constructor `Olleh()`. -/
def new (c : SodiumSizes) : Olleh :=
  let buffer : List Nat := List.replicate (bytes c) 0
  let version : MemoryView := ⟨0, 1⟩
  let key : MemoryView := ⟨version.end_, c.crypto_secretstream_xchacha20poly1305_KEYBYTES⟩
  let header : MemoryView := ⟨key.end_, c.crypto_secretstream_xchacha20poly1305_HEADERBYTES⟩
  let signature : MemoryView := ⟨header.end_, c.crypto_sign_BYTES⟩
  { buffer := buffer, version := version, key := key, header := header,
    signature := signature }

/-- The condition of the `Q_ASSERT` in the body of `Olleh()`. -/
def sizeAssert (o : Olleh) : Bool :=
  (1 + o.key.size + o.header.size + o.signature.size) == o.buffer.length

/-- The four views in declaration order. -/
def views (o : Olleh) : List MemoryView :=
  [o.version, o.key, o.header, o.signature]

end Olleh

/-! ## The handshake messages as sent -/

/-- Modelled from the spec: the filling of the HELLO buffer in
`DsClient::sayHello` (declared in `dsclient.h`, its body is in `dsclient.cpp`,
not among the sources). "HELLO (outgoing side sends first):
`version(1) || stream_key || stream_header || client_pubkey || sig`, where
`sig = sign(client_privkey, stream_key || stream_header || server_pubkey_expected)`",
"version byte = 1". Each field is stored through its view of a newly
constructed `Hello`; `sign` is signing with the client's private key. -/
def sayHello (c : SodiumSizes) (sign : List Nat → List Nat)
    (stream_key stream_header client_pubkey server_pubkey_expected : List Nat) : Hello :=
  let hello := Hello.new c
  let b := hello.version.write hello.buffer [1]
  let b := hello.key.write b stream_key
  let b := hello.header.write b stream_header
  let b := hello.pubkey.write b client_pubkey
  let sig := sign (hello.key.read b ++ hello.header.read b ++ server_pubkey_expected)
  let b := hello.signature.write b sig
  { hello with buffer := b }

/-- Modelled from the spec: the filling of the OLLEH buffer by the accepting
side (its code is not among the sources). "OLLEH (server reply):
`version(1) || stream_key || stream_header || sig`, where
`sig = sign(server_privkey, stream_key || stream_header || client_pubkey_from_hello)`".
Each field is stored through its view of a newly constructed `Olleh`; `sign` is
signing with the server's private key. -/
def sayOlleh (c : SodiumSizes) (sign : List Nat → List Nat)
    (stream_key stream_header client_pubkey_from_hello : List Nat) : Olleh :=
  let olleh := Olleh.new c
  let b := olleh.version.write olleh.buffer [1]
  let b := olleh.key.write b stream_key
  let b := olleh.header.write b stream_header
  let sig := sign (olleh.key.read b ++ olleh.header.read b ++ client_pubkey_from_hello)
  let b := olleh.signature.write b sig
  { olleh with buffer := b }

/-- Modelled from the spec: step (a) of the receiver's verification of a HELLO,
"check version = 1" (the receiving code is not among the sources). -/
def Hello.versionOk (h : Hello) : Bool :=
  h.version.read h.buffer == [1]

/-- Modelled from the spec: the version check of a received OLLEH ("OLLEH
verification is symmetric"), done in `DsClient::getHelloReply`, whose body is
not among the sources. -/
def Olleh.versionOk (o : Olleh) : Bool :=
  o.version.read o.buffer == [1]

/-! ## `Peer` -/

/-- The enum `Peer::InState`, the inbound framing state. -/
inductive InState where
  | DISABLED
  | CHUNK_SIZE
  | CHUNK_DATA
  | CLOSING
  deriving DecidableEq, Repr

/-- The data members of class `Peer`. The classes `ConnectionSocket`,
`core::ConnectData`, `Peer::Channel` (abstract) and the stream state of the crypto
library are declared outside the sources and are type parameters.
`connection_` is a shared pointer: `none` is the null pointer. The two
`std::map`s are association lists, `quint64`, `quint32` and `QUuid` values are
natural numbers. -/
structure Peer (Socket ConnectData Channel StreamState : Type) where
  inState_ : InState
  connection_ : Option Socket
  connectionData_ : ConnectData
  stateIn : StreamState
  stateOut : StreamState
  request_id_ : Nat
  nextInchannel_ : Nat
  outChannels_ : List (Nat × Channel)
  inChannels_ : List (Nat × Channel)
  notificationsDisabled_ : Bool
  uuid_ : Nat

namespace Peer

variable {Socket ConnectData Channel StreamState : Type}

/-- A newly constructed `Peer`. The body of the constructor is in `peer.cpp`,
outside the sources: every member with a default member initialiser in `peer.h`
takes that value (`= {}` is the zero value), and `connection_`,
`connectionData_` and `uuid_`, which have none, hold what the constructor was
given. -/
def new [Inhabited StreamState] (connection : Option Socket) (connectionData : ConnectData)
    (uuid : Nat) : Peer Socket ConnectData Channel StreamState :=
  { inState_ := InState.DISABLED
    connection_ := connection
    connectionData_ := connectionData
    stateIn := default
    stateOut := default
    request_id_ := 0
    nextInchannel_ := 1
    outChannels_ := []
    inChannels_ := []
    notificationsDisabled_ := false
    uuid_ := uuid }

/-- The method `Peer::getConnection`: throws `std::runtime_error` when
`connection_` is null, else returns the socket pointed to. The method is not
`const`, so the peer after the call is returned too. -/
def getConnection (p : Peer Socket ConnectData Channel StreamState) :
    Except String Socket × Peer Socket ConnectData Channel StreamState :=
  match p.connection_ with
  | none => (Except.error "No connection object", p)
  | some c => (Except.ok c, p)

/-- The method `Peer::getConnectionPtr`: throws `std::runtime_error` when
`connection_` is null, else returns the pointer `connection_` itself. -/
def getConnectionPtr (p : Peer Socket ConnectData Channel StreamState) :
    Except String (Option Socket) × Peer Socket ConnectData Channel StreamState :=
  match p.connection_ with
  | none => (Except.error "No connection object", p)
  | some c => (Except.ok (some c), p)

/-- The method `Peer::getConnectData`. -/
def getConnectData (p : Peer Socket ConnectData Channel StreamState) : ConnectData :=
  p.connectionData_

/-- Modelled from the spec: the body of `Peer::send` (`peer.cpp` is not among the
sources; `peer.h` declares it with "Returns a unique id for the request (within
the scope of this peer)"). "Each outbound request carries the session's next
`request_id`", a "per-session monotonic 64-bit counter" that "starts at 1": the
call steps the `quint64` counter `request_id_` and returns the new value. Only
this effect on the counter is modelled; the payload does not enter it. -/
def send (p : Peer Socket ConnectData Channel StreamState) :
    Nat × Peer Socket ConnectData Channel StreamState :=
  let request_id := (p.request_id_ + 1) % 2 ^ 64
  (request_id, { p with request_id_ := request_id })

/-- The request ids returned by `n` calls of `send` one after the other, oldest
first, and the peer after them. -/
def sendMany : Nat → Peer Socket ConnectData Channel StreamState →
    List Nat × Peer Socket ConnectData Channel StreamState
  | 0, p => ([], p)
  | n + 1, p =>
    let r := p.send
    let rs := sendMany n r.2
    (r.1 :: rs.1, rs.2)

end Peer

end prot

namespace core

/-- Modelled from the spec: the enum `PeerConnection::Direction`
(`ds/peerconnection.h` is not among the sources): "direction (outgoing=we dialed;
incoming=we accepted)". -/
inductive PeerConnection.Direction where
  | OUTGOING
  | INCOMING
  deriving DecidableEq, Repr

end core

namespace prot

/-! ## `DsClient` -/

/-- The enum `DsClient::State`, the handshake substate. -/
inductive DsClient.State where
  | CONNECTED
  | GET_OLLEH
  | ENCRYPTED_STREAM
  deriving DecidableEq, Repr

/-- The class `DsClient`: a `Peer` with four more data members (`size_t` values
are natural numbers). -/
structure DsClient (Socket ConnectData Channel StreamState : Type) extends
    Peer Socket ConnectData Channel StreamState where
  state_ : DsClient.State
  maxReconnects_ : Nat
  numReconnects_ : Nat
  reconnectDelayMilliseconds_ : Nat

namespace DsClient

variable {Socket ConnectData Channel StreamState : Type}

/-- A newly constructed `DsClient`. The body of the constructor is in
`dsclient.cpp`, outside the sources: the base is a newly constructed `Peer` and
the four members take their default member initialisers of `dsclient.h`. -/
def new [Inhabited StreamState] (connection : Option Socket) (connectionData : ConnectData)
    (uuid : Nat) : DsClient Socket ConnectData Channel StreamState :=
  { toPeer := Peer.new connection connectionData uuid
    state_ := State.CONNECTED
    maxReconnects_ := 20
    numReconnects_ := 0
    reconnectDelayMilliseconds_ := 20000 }

/-- The method `DsClient::getDirection`. -/
def getDirection (_ : DsClient Socket ConnectData Channel StreamState) :
    core.PeerConnection.Direction :=
  core.PeerConnection.Direction.OUTGOING

end DsClient

end prot

namespace core

/-! ## `File` and `FileData` -/

/-- The enum `File::State`. -/
inductive File.State where
  | FS_WAITING
  | FS_TRANSFERRING
  | FS_DONE
  | FS_FAILED
  | FS_REJECTED
  deriving DecidableEq, Repr

/-- The enum `File::Direction`. -/
inductive File.Direction where
  | OUTGOING
  | INCOMING
  deriving DecidableEq, Repr

/-- The value of an enumerator of `File::State` (a plain C++ enum numbers its
enumerators from 0). -/
def File.State.toNat : File.State → Nat
  | FS_WAITING => 0
  | FS_TRANSFERRING => 1
  | FS_DONE => 2
  | FS_FAILED => 3
  | FS_REJECTED => 4

/-- The struct `FileData`. `int` and `qlonglong` are integers, a `QByteArray` is a
list of bytes, a `QString` a string, and a `QDateTime` is `none` when null. -/
structure FileData where
  state : File.State := File.State.FS_WAITING
  direction : File.Direction := File.Direction.OUTGOING
  identity : Int := 0
  contact : Int := 0
  conversation : Int := 0
  hash : List Nat := []
  name : String := ""
  path : String := ""
  size : Int := 0
  bytesTransferred : Int := 0
  fileTime : Option Nat := none
  createdTime : Option Nat := none
  ackTime : Option Nat := none
  deriving DecidableEq, Repr

/-- A default-constructed `FileData`: every member takes its default member
initialiser, and a member without one its default constructor (empty, null). -/
def FileData.new : FileData := {}

/-- The record invariant `0 ≤ bytesTransferred ≤ size`. -/
def FileData.inv (d : FileData) : Prop := 0 ≤ d.bytesTransferred ∧ d.bytesTransferred ≤ d.size

instance (d : FileData) : Decidable d.inv := by
  unfold FileData.inv; infer_instance

/-! ## `ProtocolManager::create` -/

/-- Modelled from the spec: the class `ds::prot::TorProtocolManager`
(`ds/torprotocolmanager.h` is not among the sources), the protocol manager of
endpoints that "communicate exclusively through the Tor network"; it is
constructed from the settings object. -/
structure TorProtocolManager (QSettings : Type) where
  settings : QSettings
  deriving DecidableEq, Repr

/-- An object whose static type is `ProtocolManager`, tagged with its dynamic
class. `TorProtocolManager` is the only subclass the sources name. -/
inductive ProtocolManager (QSettings : Type) where
  | tor (m : TorProtocolManager QSettings)
  deriving DecidableEq, Repr

/-- The type `ProtocolManager::ptr_t`, a shared pointer: `none` is null. -/
abbrev ProtocolManager.ptr_t (QSettings : Type) : Type := Option (ProtocolManager QSettings)

/-- The function `ProtocolManager::create`. Its second parameter, of the enum
`ProtocolManager::Transport` (declared outside the sources, here a type
parameter), is unnamed in the source and not used. -/
def ProtocolManager.create {QSettings Transport : Type} (settings : QSettings)
    (_ : Transport) : ProtocolManager.ptr_t QSettings :=
  some (ProtocolManager.tor (TorProtocolManager.mk settings))

end core

/-! ## Properties -/

namespace prot

open crypto

/-- A view that ends where another one starts shares no byte with any view that
starts at or after that point. -/
theorem MemoryView_disjoint_of_le (a b : MemoryView) (h : a.end_ ≤ b.data) :
    a.disjoint b := by
  intro i hi
  obtain ⟨⟨_, h1⟩, ⟨h2, _⟩⟩ := hi
  omega

/-- C1: the HELLO buffer has `Hello::bytes = 1 + KEYBYTES + HEADERBYTES +
PUBLICKEYBYTES + SIGNBYTES` bytes; the views version, key, header, pubkey and
signature built by `Hello()` have sizes 1, KEYBYTES, HEADERBYTES, PUBLICKEYBYTES
and SIGNBYTES, start at offset 0, each start where the one before ends, end at
`Hello::bytes`, are pairwise disjoint, and every offset of the buffer lies in one
of them; the constructor's size assertion holds. This is so for every choice of
the size constants. -/
theorem Hello_layout (c : SodiumSizes) :
    Hello.bytes c = 1 + c.crypto_secretstream_xchacha20poly1305_KEYBYTES
        + c.crypto_secretstream_xchacha20poly1305_HEADERBYTES
        + c.crypto_sign_PUBLICKEYBYTES + c.crypto_sign_BYTES
    ∧ (Hello.new c).buffer.length = Hello.bytes c
    ∧ ((Hello.new c).version.size = 1
        ∧ (Hello.new c).key.size = c.crypto_secretstream_xchacha20poly1305_KEYBYTES
        ∧ (Hello.new c).header.size = c.crypto_secretstream_xchacha20poly1305_HEADERBYTES
        ∧ (Hello.new c).pubkey.size = c.crypto_sign_PUBLICKEYBYTES
        ∧ (Hello.new c).signature.size = c.crypto_sign_BYTES)
    ∧ ((Hello.new c).version.data = 0
        ∧ (Hello.new c).key.data = (Hello.new c).version.end_
        ∧ (Hello.new c).header.data = (Hello.new c).key.end_
        ∧ (Hello.new c).pubkey.data = (Hello.new c).header.end_
        ∧ (Hello.new c).signature.data = (Hello.new c).pubkey.end_
        ∧ (Hello.new c).signature.end_ = Hello.bytes c)
    ∧ (Hello.new c).views.Pairwise MemoryView.disjoint
    ∧ (∀ i, i < Hello.bytes c ↔ ∃ v ∈ (Hello.new c).views, v.covers i)
    ∧ (Hello.new c).sizeAssert = true := by
  refine ⟨rfl, by simp [Hello.new], ⟨rfl, rfl, rfl, rfl, rfl⟩, ⟨rfl, rfl, rfl, rfl, rfl, ?_⟩,
    ?_, ?_, ?_⟩
  · simp only [Hello.new, Hello.bytes, MemoryView.end_]
  · simp only [Hello.views, Hello.new, List.pairwise_cons, List.mem_cons, List.mem_singleton,
      List.not_mem_nil, forall_eq_or_imp, forall_eq, IsEmpty.forall_iff, implies_true,
      List.Pairwise.nil, and_true]
    refine ⟨⟨?_, ?_, ?_, ?_⟩, ⟨?_, ?_, ?_⟩, ⟨?_, ?_⟩, ?_⟩ <;>
      (apply MemoryView_disjoint_of_le; simp only [MemoryView.end_]; omega)
  · intro i
    simp only [Hello.views, Hello.new, Hello.bytes, List.mem_cons, List.mem_singleton,
      List.not_mem_nil, or_false, exists_eq_or_imp, exists_eq_left, MemoryView.covers,
      MemoryView.end_]
    omega
  · simp [Hello.sizeAssert, Hello.new, Hello.bytes, MemoryView.size]

/-- C2: the OLLEH buffer has `Olleh::bytes = 1 + KEYBYTES + HEADERBYTES +
SIGNBYTES` bytes; the views version, key, header and signature built by
`Olleh()` have sizes 1, KEYBYTES, HEADERBYTES and SIGNBYTES, start at offset 0,
each start where the one before ends, end at `Olleh::bytes`, are pairwise
disjoint, and every offset of the buffer lies in one of them; the key and header
views are the same views as in HELLO, and HELLO is longer than OLLEH by exactly
PUBLICKEYBYTES. -/
theorem Olleh_layout (c : SodiumSizes) :
    Olleh.bytes c = 1 + c.crypto_secretstream_xchacha20poly1305_KEYBYTES
        + c.crypto_secretstream_xchacha20poly1305_HEADERBYTES + c.crypto_sign_BYTES
    ∧ (Olleh.new c).buffer.length = Olleh.bytes c
    ∧ ((Olleh.new c).version.size = 1
        ∧ (Olleh.new c).key.size = c.crypto_secretstream_xchacha20poly1305_KEYBYTES
        ∧ (Olleh.new c).header.size = c.crypto_secretstream_xchacha20poly1305_HEADERBYTES
        ∧ (Olleh.new c).signature.size = c.crypto_sign_BYTES)
    ∧ ((Olleh.new c).version.data = 0
        ∧ (Olleh.new c).key.data = (Olleh.new c).version.end_
        ∧ (Olleh.new c).header.data = (Olleh.new c).key.end_
        ∧ (Olleh.new c).signature.data = (Olleh.new c).header.end_
        ∧ (Olleh.new c).signature.end_ = Olleh.bytes c)
    ∧ (Olleh.new c).views.Pairwise MemoryView.disjoint
    ∧ (∀ i, i < Olleh.bytes c ↔ ∃ v ∈ (Olleh.new c).views, v.covers i)
    ∧ (Olleh.new c).sizeAssert = true
    ∧ ((Olleh.new c).version = (Hello.new c).version
        ∧ (Olleh.new c).key = (Hello.new c).key
        ∧ (Olleh.new c).header = (Hello.new c).header)
    ∧ Olleh.bytes c + c.crypto_sign_PUBLICKEYBYTES = Hello.bytes c := by
  refine ⟨rfl, by simp [Olleh.new], ⟨rfl, rfl, rfl, rfl⟩, ⟨rfl, rfl, rfl, rfl, ?_⟩,
    ?_, ?_, ?_, ⟨rfl, rfl, rfl⟩, ?_⟩
  · simp only [Olleh.new, Olleh.bytes, MemoryView.end_]
  · simp only [Olleh.views, Olleh.new, List.pairwise_cons, List.mem_cons, List.mem_singleton,
      List.not_mem_nil, forall_eq_or_imp, forall_eq, IsEmpty.forall_iff, implies_true,
      List.Pairwise.nil, and_true]
    refine ⟨⟨?_, ?_, ?_⟩, ⟨?_, ?_⟩, ?_⟩ <;>
      (apply MemoryView_disjoint_of_le; simp only [MemoryView.end_]; omega)
  · intro i
    simp only [Olleh.views, Olleh.new, Olleh.bytes, List.mem_cons, List.mem_singleton,
      List.not_mem_nil, or_false, exists_eq_or_imp, exists_eq_left, MemoryView.covers,
      MemoryView.end_]
    omega
  · simp [Olleh.sizeAssert, Olleh.new, Olleh.bytes, MemoryView.size]
  · simp only [Olleh.bytes, Hello.bytes]
    omega

/-! ### The version byte -/

/-- Storing through a view that lies inside the buffer keeps the buffer's
length. -/
theorem write_length (v : MemoryView) (buffer src : List Nat)
    (h : v.end_ ≤ buffer.length) : (v.write buffer src).length = buffer.length := by
  simp only [MemoryView.end_] at h
  simp only [MemoryView.write, List.length_append, List.length_take, List.length_drop]
  omega

/-- Storing through a view that starts after offset 0 keeps the first byte. -/
theorem write_take_one (v : MemoryView) (buffer src : List Nat)
    (hd : 1 ≤ v.data) (hb : 1 ≤ buffer.length) :
    (v.write buffer src).take 1 = buffer.take 1 := by
  have h1 : 1 ≤ (buffer.take v.data).length := by
    rw [List.length_take]; omega
  have h2 : 1 ≤ (buffer.take v.data ++ src.take v.len).length := by
    rw [List.length_append]; omega
  unfold MemoryView.write
  rw [List.take_append_of_le_length h2, List.take_append_of_le_length h1, List.take_take]
  simp [hd]

/-- A buffer of `n` bytes whose first byte is 1 stays one after a store through
a view inside it that starts after offset 0. -/
theorem write_keeps_version (n : Nat) (v : MemoryView) (buffer src : List Nat)
    (hd : 1 ≤ v.data) (he : v.end_ ≤ n) (hn : 1 ≤ n)
    (hb : buffer.length = n ∧ buffer.take 1 = [1]) :
    (v.write buffer src).length = n ∧ (v.write buffer src).take 1 = [1] := by
  obtain ⟨hl, ht⟩ := hb
  refine ⟨?_, ?_⟩
  · rw [write_length v buffer src (by omega), hl]
  · rw [write_take_one v buffer src hd (by omega), ht]

/-- Storing the version 1 through the version view of a zero-filled buffer of
`n ≥ 1` bytes gives a buffer of `n` bytes whose first byte is 1. -/
theorem write_version (n : Nat) (hn : 1 ≤ n) :
    (MemoryView.write ⟨0, 1⟩ (List.replicate n 0) [1]).length = n
    ∧ (MemoryView.write ⟨0, 1⟩ (List.replicate n 0) [1]).take 1 = [1] := by
  refine ⟨?_, ?_⟩
  · simp [MemoryView.write]
    omega
  · simp [MemoryView.write]

/-- The buffer of the HELLO that `sayHello` fills has `Hello::bytes` bytes and
starts with the byte 1. -/
theorem sayHello_buffer (c : SodiumSizes) (sign : List Nat → List Nat)
    (k h p s : List Nat) :
    (sayHello c sign k h p s).buffer.length = Hello.bytes c
    ∧ (sayHello c sign k h p s).buffer.take 1 = [1] := by
  have hn : 1 ≤ Hello.bytes c := by simp only [Hello.bytes]; omega
  have h0 := write_version (Hello.bytes c) hn
  have h1 := write_keeps_version (Hello.bytes c) (Hello.new c).key _ k
    (by simp [Hello.new, MemoryView.end_])
    (by simp only [Hello.new, Hello.bytes, MemoryView.end_]; omega) hn h0
  have h2 := write_keeps_version (Hello.bytes c) (Hello.new c).header _ h
    (by simp only [Hello.new, MemoryView.end_]; omega)
    (by simp only [Hello.new, Hello.bytes, MemoryView.end_]; omega) hn h1
  have h3 := write_keeps_version (Hello.bytes c) (Hello.new c).pubkey _ p
    (by simp only [Hello.new, MemoryView.end_]; omega)
    (by simp only [Hello.new, Hello.bytes, MemoryView.end_]; omega) hn h2
  exact write_keeps_version (Hello.bytes c) (Hello.new c).signature _ _
    (by simp only [Hello.new, MemoryView.end_]; omega)
    (by simp only [Hello.new, Hello.bytes, MemoryView.end_]; omega) hn h3

/-- The buffer of the OLLEH that `sayOlleh` fills has `Olleh::bytes` bytes and
starts with the byte 1. -/
theorem sayOlleh_buffer (c : SodiumSizes) (sign : List Nat → List Nat)
    (k h p : List Nat) :
    (sayOlleh c sign k h p).buffer.length = Olleh.bytes c
    ∧ (sayOlleh c sign k h p).buffer.take 1 = [1] := by
  have hn : 1 ≤ Olleh.bytes c := by simp only [Olleh.bytes]; omega
  have h0 := write_version (Olleh.bytes c) hn
  have h1 := write_keeps_version (Olleh.bytes c) (Olleh.new c).key _ k
    (by simp [Olleh.new, MemoryView.end_])
    (by simp only [Olleh.new, Olleh.bytes, MemoryView.end_]; omega) hn h0
  have h2 := write_keeps_version (Olleh.bytes c) (Olleh.new c).header _ h
    (by simp only [Olleh.new, MemoryView.end_]; omega)
    (by simp only [Olleh.new, Olleh.bytes, MemoryView.end_]; omega) hn h1
  exact write_keeps_version (Olleh.bytes c) (Olleh.new c).signature _ _
    (by simp only [Olleh.new, MemoryView.end_]; omega)
    (by simp only [Olleh.new, Olleh.bytes, MemoryView.end_]; omega) hn h2

/-- C9: in the HELLO message that `sayHello` fills and in the OLLEH message that
the accepting side fills, whatever the key, header, public key and signature
are, the version view is the one-byte view at offset 0 of the buffer and shows
the value 1: the first byte of the message is 1, the message has the full
`Hello::bytes` (`Olleh::bytes`) bytes, and the receiver's check "version = 1"
accepts it. -/
theorem version_byte_one (c : SodiumSizes) (sign : List Nat → List Nat)
    (stream_key stream_header client_pubkey server_pubkey : List Nat) :
    ((sayHello c sign stream_key stream_header client_pubkey server_pubkey).version
        = ⟨0, 1⟩
      ∧ (sayHello c sign stream_key stream_header client_pubkey server_pubkey).version.read
          (sayHello c sign stream_key stream_header client_pubkey server_pubkey).buffer = [1]
      ∧ (sayHello c sign stream_key stream_header client_pubkey server_pubkey).buffer.head?
          = some 1
      ∧ (sayHello c sign stream_key stream_header client_pubkey server_pubkey).buffer.length
          = Hello.bytes c
      ∧ (sayHello c sign stream_key stream_header client_pubkey
          server_pubkey).versionOk = true)
    ∧ ((sayOlleh c sign stream_key stream_header client_pubkey).version = ⟨0, 1⟩
      ∧ (sayOlleh c sign stream_key stream_header client_pubkey).version.read
          (sayOlleh c sign stream_key stream_header client_pubkey).buffer = [1]
      ∧ (sayOlleh c sign stream_key stream_header client_pubkey).buffer.head? = some 1
      ∧ (sayOlleh c sign stream_key stream_header client_pubkey).buffer.length
          = Olleh.bytes c
      ∧ (sayOlleh c sign stream_key stream_header client_pubkey).versionOk = true) := by
  obtain ⟨hl, ht⟩ := sayHello_buffer c sign stream_key stream_header client_pubkey server_pubkey
  obtain ⟨ol, ot⟩ := sayOlleh_buffer c sign stream_key stream_header client_pubkey
  have hv : (sayHello c sign stream_key stream_header client_pubkey server_pubkey).version
      = ⟨0, 1⟩ := rfl
  have ov : (sayOlleh c sign stream_key stream_header client_pubkey).version = ⟨0, 1⟩ := rfl
  have hr : (sayHello c sign stream_key stream_header client_pubkey server_pubkey).version.read
      (sayHello c sign stream_key stream_header client_pubkey server_pubkey).buffer = [1] := by
    rw [hv]
    simpa [MemoryView.read] using ht
  have orr : (sayOlleh c sign stream_key stream_header client_pubkey).version.read
      (sayOlleh c sign stream_key stream_header client_pubkey).buffer = [1] := by
    rw [ov]
    simpa [MemoryView.read] using ot
  refine ⟨⟨hv, hr, ?_, hl, ?_⟩, ⟨ov, orr, ?_, ol, ?_⟩⟩
  · cases hb : (sayHello c sign stream_key stream_header client_pubkey server_pubkey).buffer with
    | nil => rw [hb] at ht; simp at ht
    | cons x xs => rw [hb] at ht; simp at ht; simp [ht]
  · simp [Hello.versionOk, hr]
  · cases hb : (sayOlleh c sign stream_key stream_header client_pubkey).buffer with
    | nil => rw [hb] at ot; simp at ot
    | cons x xs => rw [hb] at ot; simp at ot; simp [ot]
  · simp [Olleh.versionOk, orr]

/-! ### Request ids -/

section

variable {Socket ConnectData Channel StreamState : Type}

/-- While the 64-bit counter does not wrap, `n` calls of `send` return the `n`
numbers that follow the counter, in order, and leave the counter at the last. -/
theorem sendMany_ids (n : Nat) (p : Peer Socket ConnectData Channel StreamState)
    (h : p.request_id_ + n < 2 ^ 64) :
    (p.sendMany n).1 = List.range' (p.request_id_ + 1) n
    ∧ (p.sendMany n).2.request_id_ = p.request_id_ + n := by
  induction n generalizing p with
  | zero => exact ⟨rfl, rfl⟩
  | succ k ih =>
    have hs : p.send.2.request_id_ = p.request_id_ + 1 := by
      show (p.request_id_ + 1) % 2 ^ 64 = p.request_id_ + 1
      exact Nat.mod_eq_of_lt (by omega)
    have hr : p.send.1 = p.request_id_ + 1 := hs
    obtain ⟨h1, h2⟩ := ih p.send.2 (by rw [hs]; omega)
    constructor
    · show p.send.1 :: (p.send.2.sendMany k).1 = List.range' (p.request_id_ + 1) (k + 1)
      rw [h1, hr, hs]
      rfl
    · show (p.send.2.sendMany k).2.request_id_ = p.request_id_ + (k + 1)
      rw [h2, hs]
      omega

/-- C3: the counter `request_id_` of a newly constructed peer is 0 and its first
`send` returns 1; for a peer in any state, as long as the 64-bit counter does not
wrap, the ids returned by consecutive calls of `send` are the numbers following
the counter, so they are strictly increasing and each is greater than every id
issued before. -/
theorem send_request_id_increasing [Inhabited StreamState] (connection : Option Socket)
    (connectionData : ConnectData) (uuid : Nat)
    (p : Peer Socket ConnectData Channel StreamState) (n : Nat)
    (hn : p.request_id_ + n < 2 ^ 64) :
    (Peer.new connection connectionData uuid :
        Peer Socket ConnectData Channel StreamState).request_id_ = 0
    ∧ (Peer.new connection connectionData uuid :
        Peer Socket ConnectData Channel StreamState).send.1 = 1
    ∧ (p.sendMany n).1 = List.range' (p.request_id_ + 1) n
    ∧ (p.sendMany n).1.Pairwise (fun a b => a < b)
    ∧ (∀ id ∈ (p.sendMany n).1, p.request_id_ < id)
    ∧ (p.sendMany n).2.request_id_ = p.request_id_ + n := by
  obtain ⟨h1, h2⟩ := sendMany_ids n p hn
  refine ⟨rfl, rfl, h1, ?_, ?_, h2⟩
  · rw [h1]
    exact List.pairwise_lt_range' _ _
  · intro id hid
    rw [h1, List.mem_range'_1] at hid
    omega

/-- C3 at a concrete session: the first three sends of a new peer return 1, 2, 3. -/
theorem send_request_id_increasing_witness :
    (Peer.new (some 7) () 0 : Peer Nat Unit Unit Unit).request_id_ + 3 < 2 ^ 64
    ∧ ((Peer.new (some 7) () 0 : Peer Nat Unit Unit Unit).sendMany 3).1 = [1, 2, 3]
    ∧ ((Peer.new (some 7) () 0 : Peer Nat Unit Unit Unit).sendMany 3).1.Pairwise
        (fun a b => a < b) :=
  ⟨by decide,
   (send_request_id_increasing (some 7) () 0
      (Peer.new (some 7) () 0 : Peer Nat Unit Unit Unit) 3 (by decide)).2.2.1,
   (send_request_id_increasing (some 7) () 0
      (Peer.new (some 7) () 0 : Peer Nat Unit Unit Unit) 3 (by decide)).2.2.2.1⟩

/-! ### Newly constructed peers and clients -/

/-- C4: a newly constructed `DsClient` has `maxReconnects_ = 20`,
`reconnectDelayMilliseconds_ = 20000` and `numReconnects_ = 0`, so
`numReconnects_ < maxReconnects_`. -/
theorem DsClient_new_reconnect [Inhabited StreamState] (connection : Option Socket)
    (connectionData : ConnectData) (uuid : Nat) :
    (DsClient.new connection connectionData uuid :
        DsClient Socket ConnectData Channel StreamState).maxReconnects_ = 20
    ∧ (DsClient.new connection connectionData uuid :
        DsClient Socket ConnectData Channel StreamState).reconnectDelayMilliseconds_ = 20000
    ∧ (DsClient.new connection connectionData uuid :
        DsClient Socket ConnectData Channel StreamState).numReconnects_ = 0
    ∧ (DsClient.new connection connectionData uuid :
        DsClient Socket ConnectData Channel StreamState).numReconnects_
      < (DsClient.new connection connectionData uuid :
        DsClient Socket ConnectData Channel StreamState).maxReconnects_ :=
  ⟨rfl, rfl, rfl, by show 0 < 20; decide⟩

/-- C5: a newly constructed `Peer` has `inState_ = DISABLED`; a newly constructed
`DsClient` has `inState_ = DISABLED` too and is in handshake substate
`CONNECTED`, which is neither `GET_OLLEH` nor `ENCRYPTED_STREAM`; so neither
starts in one of the frame-reading states `CHUNK_SIZE`, `CHUNK_DATA`. -/
theorem new_peer_inState_disabled [Inhabited StreamState] (connection : Option Socket)
    (connectionData : ConnectData) (uuid : Nat) :
    (Peer.new connection connectionData uuid :
        Peer Socket ConnectData Channel StreamState).inState_ = InState.DISABLED
    ∧ (DsClient.new connection connectionData uuid :
        DsClient Socket ConnectData Channel StreamState).inState_ = InState.DISABLED
    ∧ (DsClient.new connection connectionData uuid :
        DsClient Socket ConnectData Channel StreamState).state_ = DsClient.State.CONNECTED
    ∧ (DsClient.new connection connectionData uuid :
        DsClient Socket ConnectData Channel StreamState).state_ ≠ DsClient.State.GET_OLLEH
    ∧ (DsClient.new connection connectionData uuid :
        DsClient Socket ConnectData Channel StreamState).state_
      ≠ DsClient.State.ENCRYPTED_STREAM
    ∧ (Peer.new connection connectionData uuid :
        Peer Socket ConnectData Channel StreamState).inState_ ≠ InState.CHUNK_SIZE
    ∧ (Peer.new connection connectionData uuid :
        Peer Socket ConnectData Channel StreamState).inState_ ≠ InState.CHUNK_DATA := by
  refine ⟨rfl, rfl, rfl, ?_, ?_, ?_, ?_⟩
  · show DsClient.State.CONNECTED ≠ DsClient.State.GET_OLLEH
    decide
  · show DsClient.State.CONNECTED ≠ DsClient.State.ENCRYPTED_STREAM
    decide
  · show InState.DISABLED ≠ InState.CHUNK_SIZE
    decide
  · show InState.DISABLED ≠ InState.CHUNK_DATA
    decide

/-- C6: `DsClient::getDirection` returns `OUTGOING`, never `INCOMING`, for every
`DsClient`, and the answer is the same whatever the handshake substate and the
reconnect count are set to. -/
theorem DsClient_getDirection_outgoing (c : DsClient Socket ConnectData Channel StreamState) :
    c.getDirection = core.PeerConnection.Direction.OUTGOING
    ∧ c.getDirection ≠ core.PeerConnection.Direction.INCOMING
    ∧ ∀ (s : DsClient.State) (k : Nat),
        DsClient.getDirection { c with state_ := s, numReconnects_ := k } = c.getDirection := by
  refine ⟨rfl, ?_, fun _ _ => rfl⟩
  show core.PeerConnection.Direction.OUTGOING ≠ core.PeerConnection.Direction.INCOMING
  decide

/-! ### Connection accessors -/

/-- C10: `getConnection` and `getConnectionPtr` fail, with the error
"No connection object", exactly when `connection_` is null; a failure carries no
other message; otherwise `getConnection` returns the socket `connection_` points
to and `getConnectionPtr` returns `connection_`, so both name the same
connection; and the peer after either call is the peer before it. -/
theorem getConnection_spec (p : Peer Socket ConnectData Channel StreamState) :
    (p.getConnection.1 = Except.error "No connection object" ↔ p.connection_ = none)
    ∧ (p.getConnectionPtr.1 = Except.error "No connection object" ↔ p.connection_ = none)
    ∧ (∀ e, p.getConnection.1 = Except.error e ↔
        (e = "No connection object" ∧ p.connection_ = none))
    ∧ (∀ e, p.getConnectionPtr.1 = Except.error e ↔
        (e = "No connection object" ∧ p.connection_ = none))
    ∧ (∀ c, p.getConnection.1 = Except.ok c ↔ p.connection_ = some c)
    ∧ (∀ q, p.getConnectionPtr.1 = Except.ok q ↔ (q = p.connection_ ∧ q ≠ none))
    ∧ (∀ c, p.getConnection.1 = Except.ok c ↔ p.getConnectionPtr.1 = Except.ok (some c))
    ∧ p.getConnection.2 = p
    ∧ p.getConnectionPtr.2 = p := by
  unfold Peer.getConnection Peer.getConnectionPtr
  cases h : p.connection_ with
  | none =>
    simp only [Except.error.injEq, and_true, reduceCtorEq, false_iff, not_false_eq_true,
      implies_true, true_and, iff_self, false_and, and_false]
    exact ⟨fun _ => eq_comm, fun _ => eq_comm, fun q hq => hq.2 hq.1⟩
  | some c =>
    simp only [reduceCtorEq, false_iff, not_false_eq_true, Except.ok.injEq, Option.some.injEq,
      and_false, ne_eq, and_true, implies_true, true_and]
    intro q
    constructor
    · rintro rfl
      exact ⟨rfl, by simp⟩
    · rintro ⟨rfl, _⟩
      rfl

end

end prot

namespace core

/-! ### File records -/

/-- C7: a default `FileData` satisfies `0 ≤ bytesTransferred ≤ size` with both
equal to 0, is in state `FS_WAITING`, and has direction `OUTGOING`;
`File::State` has exactly the five pairwise distinct values `FS_WAITING`,
`FS_TRANSFERRING`, `FS_DONE`, `FS_FAILED`, `FS_REJECTED`. -/
theorem FileData_new_inv :
    FileData.new.inv
    ∧ FileData.new.bytesTransferred = 0 ∧ FileData.new.size = 0
    ∧ FileData.new.state = File.State.FS_WAITING
    ∧ FileData.new.direction = File.Direction.OUTGOING
    ∧ [File.State.FS_WAITING, File.State.FS_TRANSFERRING, File.State.FS_DONE,
        File.State.FS_FAILED, File.State.FS_REJECTED].Nodup
    ∧ (∀ s : File.State, s ∈ [File.State.FS_WAITING, File.State.FS_TRANSFERRING,
        File.State.FS_DONE, File.State.FS_FAILED, File.State.FS_REJECTED])
    ∧ [File.State.FS_WAITING, File.State.FS_TRANSFERRING, File.State.FS_DONE,
        File.State.FS_FAILED, File.State.FS_REJECTED].map File.State.toNat = [0, 1, 2, 3, 4] := by
  refine ⟨by decide, rfl, rfl, rfl, rfl, by decide, ?_, rfl⟩
  intro s
  cases s <;> decide

/-! ### Protocol manager -/

/-- C8: for every settings object and every value of the transport argument,
`ProtocolManager::create` returns a non-null pointer to a `TorProtocolManager`
built from those settings, and two calls with the same settings return the same
manager whatever the two transport arguments are. -/
theorem ProtocolManager_create_tor {QSettings Transport : Type} (settings : QSettings)
    (transport : Transport) :
    ProtocolManager.create settings transport
      = some (ProtocolManager.tor (TorProtocolManager.mk settings))
    ∧ ProtocolManager.create settings transport ≠ none
    ∧ ∀ other : Transport,
        ProtocolManager.create settings other = ProtocolManager.create settings transport := by
  refine ⟨rfl, ?_, fun _ => rfl⟩
  simp [ProtocolManager.create]

end core

end ds
